import Mathlib

/-!
Verification development for the repository-ingest utility
(src/repository-ingest.py).

The program is glue code around an external ingestion capability
(gitingest): it resolves a repository reference and an identifier,
invokes the ingestion capability once, writes three text files and one
JSON metadata file, and offers a command-line surface with a
"latest repository" selection mode.

The embedding below is a shallow one: the external world (filesystem
tests, directory listing, creation times, write success, the ingestion
capability itself, the clock) is packaged in an environment record
`Env`, and each Python function becomes a pure Lean function from the
environment and its arguments to a result together with an observable
trace (which ingestion calls happened, which files were written with
which data, in order).  Path manipulation functions model the POSIX
semantics of the os.path module.  String primitives are implemented
structurally over character lists so that every definition evaluates
inside the kernel.
-/

/-- Boolean test that the second list begins with the first list. -/
def listBeginsWith : List Char → List Char → Bool
  | [], _ => true
  | _ :: _, [] => false
  | a :: as, b :: bs => a = b && listBeginsWith as bs

/-- Model of Python str.startswith for string arguments. -/
def pyStartsWith (s pat : String) : Bool :=
  listBeginsWith pat.data s.data

/-- Model of Python str.endswith for string arguments. -/
def pyEndsWith (s pat : String) : Bool :=
  listBeginsWith pat.data.reverse s.data.reverse

/-- Split a character list at every occurrence of a separator
character; n separators give n + 1 pieces, as Python str.split with an
explicit separator does. -/
def splitOnChar (sep : Char) (l : List Char) : List (List Char) :=
  l.foldr (fun c acc =>
    match acc with
    | [] => [[c]]
    | p :: ps => if c = sep then [] :: p :: ps else (c :: p) :: ps) [[]]

/-- Model of Python path.split, with the slash separator. -/
def py_split_slash (s : String) : List String :=
  (splitOnChar '/' s.data).map String.mk

/-- Join string pieces with the slash separator (used by normpath). -/
def joinSlash : List String → String
  | [] => ""
  | [x] => x
  | x :: y :: xs => x ++ "/" ++ joinSlash (y :: xs)

/-- Model of the Python slice s[:-n], dropping the final n characters. -/
def pyDropRight (s : String) (n : Nat) : String :=
  String.mk (s.data.take (s.data.length - n))

/-- Truthiness of an optional string argument, as Python evaluates
`if not x:` — both None and the empty string are falsy. -/
def pyTruthy : Option String → Bool
  | none => false
  | some s => s ≠ ""

/-- Model of os.path.join for two components (POSIX semantics): the
second component replaces the first when absolute, otherwise the two
are joined with a separator unless one is already present. -/
def ospath_join (a b : String) : String :=
  if pyStartsWith b "/" then b
  else if a = "" ∨ pyEndsWith a "/" then a ++ b
  else a ++ "/" ++ b

/-- Model of os.path.normpath (POSIX semantics): collapses repeated
separators and resolves "." and ".." components, preserving one or two
leading slashes exactly as CPython does. -/
def normpath (path : String) : String :=
  if path = "" then "."
  else
    let initSlashes : Nat :=
      if pyStartsWith path "/" then
        if pyStartsWith path "//" ∧ ¬ pyStartsWith path "///" then 2 else 1
      else 0
    let comps := py_split_slash path
    let newComps := comps.foldl (fun acc comp =>
      if comp = "" ∨ comp = "." then acc
      else if comp ≠ ".." ∨ (initSlashes = 0 ∧ acc = []) ∨ (acc ≠ [] ∧ acc.getLastD "" = "..") then
        acc ++ [comp]
      else if acc ≠ [] then acc.dropLast
      else acc) []
    let p := String.join (List.replicate initSlashes "/") ++ joinSlash newComps
    if p = "" then "." else p

/-- Model of os.path.basename (POSIX semantics): the part of the path
after the final separator. -/
def basename (p : String) : String :=
  (py_split_slash p).getLastD ""

example : ospath_join "/t" "a_summary.txt" = "/t/a_summary.txt" := by decide
example : normpath "/a/b/myrepo" = "/a/b/myrepo" := by decide
example : normpath "/a/b/myrepo/" = "/a/b/myrepo" := by decide
example : basename (normpath "/a/b/myrepo") = "myrepo" := by decide
example : pyDropRight "myrepo.git" 4 = "myrepo" := by decide

/-- The files sub-record of the metadata JSON object: the three output
text paths (source lines 112 to 116). -/
structure MetadataFiles where
  summary : String
  tree : String
  content : String
deriving DecidableEq, Repr

/-- The stats sub-record of the metadata JSON object: the character
lengths of the three ingestion blobs (source lines 117 to 121). -/
structure MetadataStats where
  summary_length : Nat
  tree_length : Nat
  content_length : Nat
deriving DecidableEq, Repr

/-- The metadata record serialized to the metadata JSON file
(source lines 109 to 122). -/
structure Metadata where
  repository_id : String
  processed_at : String
  files : MetadataFiles
  stats : MetadataStats
deriving DecidableEq, Repr

/-- The metadata record built by process_repository from the resolved
identifier, the current time, the three text paths and the three
ingestion blobs. -/
def mk_metadata (now rid sf tf cf s t c : String) : Metadata :=
  { repository_id := rid
    processed_at := now
    files := { summary := sf, tree := tf, content := cf }
    stats := { summary_length := s.length, tree_length := t.length, content_length := c.length } }

/-- Data written to a file: raw text for the three text artifacts, or a
serialized metadata record for the JSON file. -/
inductive FileData where
  | text (s : String)
  | json (m : Metadata)
deriving DecidableEq, Repr

/-- Error kinds raised by the program: failure of the external
ingestion capability, failure of a file write, the explicit
no-repositories ValueError of process_latest_repo, and failure of the
directory creation performed at construction time. -/
inductive Err where
  | ingestErr (msg : String)
  | writeErr (path : String)
  | noCandidates
  | makedirsErr (path : String)
deriving DecidableEq, Repr

/-- Environment record packaging every interaction with the external
world: filesystem directory tests, the ingestion capability (a result
triple or an error), per-path write success, the working-directory
listing (or a listing failure), per-path creation times, directory
creation success, the clock and the home directory. -/
structure Env where
  isDir : String → Bool
  ingest : String → Except String (String × String × String)
  writeOk : String → Bool
  listdir : Option (List String)
  getctime : String → Int
  makedirsOk : String → Bool
  now : String
  home : String

/-- Observable trace of one run: which references were passed to the
ingestion capability, and which files were written with which data, in
program order. -/
structure RunTrace where
  ingestCalls : List String
  writes : List (String × FileData)
deriving DecidableEq, Repr

/-- Result dictionary returned by process_repository on success
(source lines 130 to 138): the four output paths and the three raw
blobs. -/
structure ProcResult where
  summary_file : String
  tree_file : String
  content_file : String
  metadata_file : String
  summary : String
  tree : String
  content : String
deriving DecidableEq, Repr

/-- Resolution of the output directory (source lines 75 to 76): a falsy
output_dir argument defaults to the working directory. -/
def resolve_output_dir (temp_dir : String) (output_dir : Option String) : String :=
  if pyTruthy output_dir then output_dir.getD "" else temp_dir

/-- Identifier derivation when no identifier is supplied (source lines
80 to 87): the basename of the normalized path for a local directory,
otherwise the final slash-separated segment of the URL with a trailing
.git suffix stripped. -/
def derive_repo_id (isDir : String → Bool) (repo_path : String) : String :=
  if isDir repo_path then basename (normpath repo_path)
  else
    let seg := (py_split_slash repo_path).getLastD ""
    if pyEndsWith seg ".git" then pyDropRight seg 4 else seg

/-- Resolution of the repository identifier (source lines 79 to 87): a
falsy repo_id argument is replaced by the derived identifier. -/
def resolve_repo_id (isDir : String → Bool) (repo_path : String) (repo_id : Option String) : String :=
  if pyTruthy repo_id then repo_id.getD "" else derive_repo_id isDir repo_path

/-- Embedding of RepositoryIngest.get_repo_dirs (source lines 41 to
54): list the working directory and keep the entries that are
directories; any listing error is absorbed and yields the empty list. -/
def get_repo_dirs (env : Env) (temp_dir : String) : List String :=
  match env.listdir with
  | none => []
  | some entries => entries.filter (fun d => env.isDir (ospath_join temp_dir d))

/-- Embedding of RepositoryIngest.process_repository (source lines 56
to 142): resolve the output directory and identifier, call the
ingestion capability, then write the summary, tree, content and
metadata files in that order, stopping at the first failure.  Errors
are logged and re-raised unchanged, so the embedding returns them
directly, together with the trace of the run. -/
def process_repository (env : Env) (temp_dir repo_path : String)
    (output_dir repo_id : Option String) : Except Err ProcResult × RunTrace :=
  let out := resolve_output_dir temp_dir output_dir
  let rid := resolve_repo_id env.isDir repo_path repo_id
  match env.ingest repo_path with
  | Except.error e => (Except.error (Err.ingestErr e), ⟨[repo_path], []⟩)
  | Except.ok (summary, tree, content) =>
    let summary_file := ospath_join out (rid ++ "_summary.txt")
    let tree_file := ospath_join out (rid ++ "_tree.txt")
    let content_file := ospath_join out (rid ++ "_content.txt")
    let metadata_file := ospath_join out (rid ++ "_metadata.json")
    if env.writeOk summary_file = false then
      (Except.error (Err.writeErr summary_file), ⟨[repo_path], []⟩)
    else if env.writeOk tree_file = false then
      (Except.error (Err.writeErr tree_file),
        ⟨[repo_path], [(summary_file, FileData.text summary)]⟩)
    else if env.writeOk content_file = false then
      (Except.error (Err.writeErr content_file),
        ⟨[repo_path], [(summary_file, FileData.text summary), (tree_file, FileData.text tree)]⟩)
    else
      let metadata := mk_metadata env.now rid summary_file tree_file content_file summary tree content
      if env.writeOk metadata_file = false then
        (Except.error (Err.writeErr metadata_file),
          ⟨[repo_path], [(summary_file, FileData.text summary), (tree_file, FileData.text tree),
            (content_file, FileData.text content)]⟩)
      else
        (Except.ok ⟨summary_file, tree_file, content_file, metadata_file, summary, tree, content⟩,
          ⟨[repo_path], [(summary_file, FileData.text summary), (tree_file, FileData.text tree),
            (content_file, FileData.text content), (metadata_file, FileData.json metadata)]⟩)

/-- Stable descending insertion: the new element is placed before the
first element whose key is less than or equal to its own, so an
original-earlier element precedes every equal-key element. -/
def insertD (key : String → Int) (x : String) : List String → List String
  | [] => [x]
  | y :: ys => if key y ≤ key x then x :: y :: ys else y :: insertD key x ys

/-- Stable sort by key in descending order, the semantics of Python
list.sort with a key function and reverse set to True. -/
def sortDesc (key : String → Int) : List String → List String
  | [] => []
  | x :: xs => insertD key x (sortDesc key xs)

/-- Sort key used by process_latest_repo (source line 161): the
creation time of the candidate joined under the working directory. -/
def ctime_key (env : Env) (temp_dir : String) (d : String) : Int :=
  env.getctime (ospath_join temp_dir d)

/-- Embedding of RepositoryIngest.process_latest_repo (source lines 144
to 171): discover candidates, raise a ValueError when none exist, sort
the candidates by creation time newest first, and delegate to
process_repository with the full path of the first candidate and its
name as the identifier. -/
def process_latest_repo (env : Env) (temp_dir : String) (output_dir : Option String) :
    Except Err ProcResult × RunTrace :=
  let repo_dirs := get_repo_dirs env temp_dir
  if repo_dirs = [] then (Except.error Err.noCandidates, ⟨[], []⟩)
  else
    let sorted := sortDesc (ctime_key env temp_dir) repo_dirs
    let latest := sorted.headD ""
    process_repository env temp_dir (ospath_join temp_dir latest) output_dir (some latest)

/-- Parsed command-line arguments (source lines 181 to 206). -/
structure Args where
  repo : Option String
  latest : Bool
  temp_dir : Option String
  output_dir : Option String
  repo_id : Option String
  verbose : Bool

/-- Default working directory computed by the constructor when no
override is given (source line 35). -/
def default_temp_dir (home : String) : String :=
  ospath_join (ospath_join (ospath_join (ospath_join home "AppData") "Local") "Temp") "codeinsight"

/-- Resolution of the working directory at construction (source lines
31 to 35): a falsy temp_dir argument is replaced by the default. -/
def resolve_temp_dir (env : Env) (temp_dir : Option String) : String :=
  if pyTruthy temp_dir then temp_dir.getD "" else default_temp_dir env.home

/-- Exit-code wrapper for one processing branch of main: a successful
run prints the paths and falls through to exit code zero, a raised
error reaches the top-level handler and exits with code one. -/
def exit_of (r : Except Err ProcResult × RunTrace) : Nat × RunTrace :=
  match r with
  | (Except.ok _, tr) => (0, tr)
  | (Except.error _, tr) => (1, tr)

/-- Embedding of the main function (source lines 174 to 249): construct the
processor (directory creation may fail), then dispatch on the repo
argument, the latest flag, or fall through to the candidate-listing
path, returning the process exit code and the trace of the run. -/
def main_entry (env : Env) (args : Args) : Nat × RunTrace :=
  let td := resolve_temp_dir env args.temp_dir
  if env.makedirsOk td = false then (1, ⟨[], []⟩)
  else if pyTruthy args.repo then
    exit_of (process_repository env td (args.repo.getD "") args.output_dir args.repo_id)
  else if args.latest then
    exit_of (process_latest_repo env td args.output_dir)
  else (0, ⟨[], []⟩)

/-- Boolean success test for an Except value. -/
def exceptOk {ε α : Type} : Except ε α → Bool
  | Except.ok _ => true
  | Except.error _ => false

/-- Environment in which every external operation succeeds and the
ingestion capability returns the triple ("s", "t", "c"). -/
def envOk : Env :=
  { isDir := fun _ => true
    ingest := fun _ => Except.ok ("s", "t", "c")
    writeOk := fun _ => true
    listdir := some ["r1"]
    getctime := fun _ => 0
    makedirsOk := fun _ => true
    now := "2025-01-01 00:00:00"
    home := "/h" }

/-- Environment whose ingestion capability fails with message "boom";
everything else succeeds. -/
def envIngestFail : Env :=
  { isDir := fun _ => true
    ingest := fun _ => Except.error "boom"
    writeOk := fun _ => true
    listdir := some ["r1"]
    getctime := fun _ => 0
    makedirsOk := fun _ => true
    now := "2025-01-01 00:00:00"
    home := "/h" }

/-- Environment whose working-directory listing fails; everything else
succeeds. -/
def envListNone : Env :=
  { isDir := fun _ => false
    ingest := fun _ => Except.ok ("s", "t", "c")
    writeOk := fun _ => true
    listdir := none
    getctime := fun _ => 0
    makedirsOk := fun _ => true
    now := "2025-01-01 00:00:00"
    home := "/h" }

/-- C5: if the external ingestion call raises, process_repository
writes no file at all — in particular no metadata file — and the error
reaches the caller unchanged in kind, as an ingestion error carrying
the original message. -/
theorem ingest_error_propagates (env : Env) (temp repo : String)
    (outd rid : Option String) (e : String)
    (hi : env.ingest repo = Except.error e) :
    process_repository env temp repo outd rid
      = (Except.error (Err.ingestErr e), ⟨[repo], []⟩) := by
  simp [process_repository, hi]

/-- Witness for C5 at a concrete environment whose ingestion fails. -/
theorem ingest_error_propagates_witness :
    process_repository envIngestFail "/t" "r" none none
      = (Except.error (Err.ingestErr "boom"), ⟨["r"], []⟩) :=
  ingest_error_propagates envIngestFail "/t" "r" none none "boom" rfl

/-- C3: when no candidate directory is discovered, process_latest_repo
raises the no-repositories error and the run has an empty trace: the
ingestion capability is never invoked and nothing is written. -/
theorem no_candidates_raises (env : Env) (temp : String) (outd : Option String)
    (h : get_repo_dirs env temp = []) :
    process_latest_repo env temp outd = (Except.error Err.noCandidates, ⟨[], []⟩) := by
  simp [process_latest_repo, h]

/-- Witness for C3 at a concrete environment whose listing is empty. -/
theorem no_candidates_raises_witness :
    process_latest_repo envListNone "/t" none
      = (Except.error Err.noCandidates, ⟨[], []⟩) :=
  no_candidates_raises envListNone "/t" none (by decide)

/-- C6: a failed working-directory listing yields the empty candidate
list instead of an error, and on a successful listing every candidate
returned by get_repo_dirs is one of the listed entries and is a
directory under the working directory. -/
theorem discover_candidates_spec (env : Env) (temp : String) :
    (env.listdir = none → get_repo_dirs env temp = []) ∧
    (∀ es, env.listdir = some es →
      ∀ d ∈ get_repo_dirs env temp, d ∈ es ∧ env.isDir (ospath_join temp d) = true) := by
  constructor
  · intro h
    simp [get_repo_dirs, h]
  · intro es h d hd
    simp only [get_repo_dirs, h, List.mem_filter] at hd
    exact hd

/-- Witness for C6: the listing-failure branch at a concrete failing
environment and the subdirectory property at a concrete successful
one. -/
theorem discover_candidates_spec_witness :
    get_repo_dirs envListNone "/t" = [] ∧
    ("r1" ∈ ["r1"] ∧ envOk.isDir (ospath_join "/t" "r1") = true) :=
  ⟨(discover_candidates_spec envListNone "/t").1 rfl,
   (discover_candidates_spec envOk "/t").2 ["r1"] rfl "r1" (by decide)⟩

/-- C2 counterexample: the identifier argument some "" is explicitly
supplied yet does not override derivation — the code tests Python
truthiness, so the empty identifier is replaced by the derived one. -/
theorem repo_id_empty_not_override :
    resolve_repo_id (fun _ => false) "https://host/org/myrepo.git" (some "") = "myrepo" ∧
    resolve_repo_id (fun _ => false) "https://host/org/myrepo.git" (some "") ≠ "" := by
  constructor <;> decide

/-- C2 amended: a supplied non-empty identifier always overrides
derivation; when the identifier is omitted the derived identifier is
the basename of the normalized path for a local directory and the
final slash-separated URL segment with a trailing .git stripped
otherwise; in particular "/a/b/myrepo" derives "myrepo" and
"https://host/org/myrepo.git" derives "myrepo". -/
theorem repo_id_resolution :
    (∀ (isDir : String → Bool) (p rid : String), rid ≠ "" →
      resolve_repo_id isDir p (some rid) = rid) ∧
    (∀ (isDir : String → Bool) (p : String), isDir p = true →
      resolve_repo_id isDir p none = basename (normpath p)) ∧
    (∀ (isDir : String → Bool) (p : String), isDir p = false →
      resolve_repo_id isDir p none =
        (if pyEndsWith ((py_split_slash p).getLastD "") ".git"
         then pyDropRight ((py_split_slash p).getLastD "") 4
         else (py_split_slash p).getLastD "")) ∧
    resolve_repo_id (fun _ => true) "/a/b/myrepo" none = "myrepo" ∧
    resolve_repo_id (fun _ => false) "https://host/org/myrepo.git" none = "myrepo" := by
  refine ⟨?_, ?_, ?_, by decide, by decide⟩
  · intro isDir p rid h
    simp [resolve_repo_id, pyTruthy, h]
  · intro isDir p h
    simp [resolve_repo_id, pyTruthy, derive_repo_id, h]
  · intro isDir p h
    simp [resolve_repo_id, pyTruthy, derive_repo_id, h]

/-- Witness for C2 amended, applying the override part at a concrete
non-empty identifier and the local-directory derivation at a concrete
path. -/
theorem repo_id_resolution_witness :
    resolve_repo_id (fun _ => true) "/x" (some "forced") = "forced" ∧
    resolve_repo_id (fun _ => true) "/a/b/myrepo" none = basename (normpath "/a/b/myrepo") :=
  ⟨repo_id_resolution.1 (fun _ => true) "/x" "forced" (by decide),
   repo_id_resolution.2.1 (fun _ => true) "/a/b/myrepo" (by decide)⟩

/-- The complete four-element write sequence of one successful
processing run, in program order: summary, tree, content, then the
metadata record. -/
def full_writes (env : Env) (out rid s t c : String) : List (String × FileData) :=
  [(ospath_join out (rid ++ "_summary.txt"), FileData.text s),
   (ospath_join out (rid ++ "_tree.txt"), FileData.text t),
   (ospath_join out (rid ++ "_content.txt"), FileData.text c),
   (ospath_join out (rid ++ "_metadata.json"),
     FileData.json (mk_metadata env.now rid
       (ospath_join out (rid ++ "_summary.txt"))
       (ospath_join out (rid ++ "_tree.txt"))
       (ospath_join out (rid ++ "_content.txt")) s t c))]

/-- C1: a successful run of process_repository writes exactly four
files, at the summary, tree, content and metadata paths derived from
the resolved output directory and identifier, and the stats of the
metadata record written to the metadata file equal the character
lengths of the summary, tree and content texts written to the three
text files. -/
theorem outputs_on_success (env : Env) (temp repo : String)
    (outd rid : Option String) (s t c : String) (r : ProcResult)
    (hi : env.ingest repo = Except.ok (s, t, c))
    (hr : (process_repository env temp repo outd rid).1 = Except.ok r) :
    (process_repository env temp repo outd rid).2.writes
      = full_writes env (resolve_output_dir temp outd)
          (resolve_repo_id env.isDir repo rid) s t c ∧
    (mk_metadata env.now (resolve_repo_id env.isDir repo rid)
        (ospath_join (resolve_output_dir temp outd) (resolve_repo_id env.isDir repo rid ++ "_summary.txt"))
        (ospath_join (resolve_output_dir temp outd) (resolve_repo_id env.isDir repo rid ++ "_tree.txt"))
        (ospath_join (resolve_output_dir temp outd) (resolve_repo_id env.isDir repo rid ++ "_content.txt"))
        s t c).stats
      = ⟨s.length, t.length, c.length⟩ := by
  by_cases h1 : env.writeOk (ospath_join (resolve_output_dir temp outd)
      (resolve_repo_id env.isDir repo rid ++ "_summary.txt")) = false
  · simp [process_repository, hi, h1] at hr
  · by_cases h2 : env.writeOk (ospath_join (resolve_output_dir temp outd)
        (resolve_repo_id env.isDir repo rid ++ "_tree.txt")) = false
    · simp [process_repository, hi, h1, h2] at hr
    · by_cases h3 : env.writeOk (ospath_join (resolve_output_dir temp outd)
          (resolve_repo_id env.isDir repo rid ++ "_content.txt")) = false
      · simp [process_repository, hi, h1, h2, h3] at hr
      · by_cases h4 : env.writeOk (ospath_join (resolve_output_dir temp outd)
            (resolve_repo_id env.isDir repo rid ++ "_metadata.json")) = false
        · simp [process_repository, hi, h1, h2, h3, h4] at hr
        · constructor
          · simp [process_repository, hi, h1, h2, h3, h4, full_writes]
          · simp [mk_metadata]

/-- Witness for C1 at the all-success environment. -/
theorem outputs_on_success_witness :
    (process_repository envOk "/t" "r" none none).2.writes
      = full_writes envOk (resolve_output_dir "/t" none)
          (resolve_repo_id envOk.isDir "r" none) "s" "t" "c" ∧
    (mk_metadata envOk.now (resolve_repo_id envOk.isDir "r" none)
        (ospath_join (resolve_output_dir "/t" none) (resolve_repo_id envOk.isDir "r" none ++ "_summary.txt"))
        (ospath_join (resolve_output_dir "/t" none) (resolve_repo_id envOk.isDir "r" none ++ "_tree.txt"))
        (ospath_join (resolve_output_dir "/t" none) (resolve_repo_id envOk.isDir "r" none ++ "_content.txt"))
        "s" "t" "c").stats
      = ⟨"s".length, "t".length, "c".length⟩ :=
  outputs_on_success envOk "/t" "r" none none "s" "t" "c"
    ⟨"/t/r_summary.txt", "/t/r_tree.txt", "/t/r_content.txt", "/t/r_metadata.json", "s", "t", "c"⟩
    rfl rfl

/-- C8: on success, the mapping returned by process_repository carries
the four output file paths and the three raw blobs exactly as the
ingestion capability returned them, unmodified. -/
theorem result_carries_blobs (env : Env) (temp repo : String)
    (outd rid : Option String) (s t c : String) (r : ProcResult)
    (hi : env.ingest repo = Except.ok (s, t, c))
    (hr : (process_repository env temp repo outd rid).1 = Except.ok r) :
    r.summary = s ∧ r.tree = t ∧ r.content = c ∧
    r.summary_file = ospath_join (resolve_output_dir temp outd)
      (resolve_repo_id env.isDir repo rid ++ "_summary.txt") ∧
    r.tree_file = ospath_join (resolve_output_dir temp outd)
      (resolve_repo_id env.isDir repo rid ++ "_tree.txt") ∧
    r.content_file = ospath_join (resolve_output_dir temp outd)
      (resolve_repo_id env.isDir repo rid ++ "_content.txt") ∧
    r.metadata_file = ospath_join (resolve_output_dir temp outd)
      (resolve_repo_id env.isDir repo rid ++ "_metadata.json") := by
  by_cases h1 : env.writeOk (ospath_join (resolve_output_dir temp outd)
      (resolve_repo_id env.isDir repo rid ++ "_summary.txt")) = false
  · simp [process_repository, hi, h1] at hr
  · by_cases h2 : env.writeOk (ospath_join (resolve_output_dir temp outd)
        (resolve_repo_id env.isDir repo rid ++ "_tree.txt")) = false
    · simp [process_repository, hi, h1, h2] at hr
    · by_cases h3 : env.writeOk (ospath_join (resolve_output_dir temp outd)
          (resolve_repo_id env.isDir repo rid ++ "_content.txt")) = false
      · simp [process_repository, hi, h1, h2, h3] at hr
      · by_cases h4 : env.writeOk (ospath_join (resolve_output_dir temp outd)
            (resolve_repo_id env.isDir repo rid ++ "_metadata.json")) = false
        · simp [process_repository, hi, h1, h2, h3, h4] at hr
        · simp [process_repository, hi, h1, h2, h3, h4] at hr
          subst hr
          simp

/-- Witness for C8 at the all-success environment. -/
theorem result_carries_blobs_witness :
    ("s" : String) = "s" ∧ ("t" : String) = "t" ∧ ("c" : String) = "c" ∧
    ("/t/r_summary.txt" : String) = ospath_join (resolve_output_dir "/t" none)
      (resolve_repo_id envOk.isDir "r" none ++ "_summary.txt") ∧
    ("/t/r_tree.txt" : String) = ospath_join (resolve_output_dir "/t" none)
      (resolve_repo_id envOk.isDir "r" none ++ "_tree.txt") ∧
    ("/t/r_content.txt" : String) = ospath_join (resolve_output_dir "/t" none)
      (resolve_repo_id envOk.isDir "r" none ++ "_content.txt") ∧
    ("/t/r_metadata.json" : String) = ospath_join (resolve_output_dir "/t" none)
      (resolve_repo_id envOk.isDir "r" none ++ "_metadata.json") :=
  result_carries_blobs envOk "/t" "r" none none "s" "t" "c"
    ⟨"/t/r_summary.txt", "/t/r_tree.txt", "/t/r_content.txt", "/t/r_metadata.json", "s", "t", "c"⟩
    rfl rfl

/-- C7: once ingestion has succeeded, the files written by one run form
a prefix-in-order portion of the summary, tree, content, metadata
sequence — the metadata file is the final step and nothing already
written is cleaned up — and whenever one of the three text writes
fails, no metadata record is written in that run. -/
theorem metadata_written_last (env : Env) (temp repo : String)
    (outd rid : Option String) (s t c : String)
    (hi : env.ingest repo = Except.ok (s, t, c)) :
    ∃ k, (process_repository env temp repo outd rid).2.writes
        = (full_writes env (resolve_output_dir temp outd)
            (resolve_repo_id env.isDir repo rid) s t c).take k ∧
      ((env.writeOk (ospath_join (resolve_output_dir temp outd)
          (resolve_repo_id env.isDir repo rid ++ "_summary.txt")) = false ∨
        env.writeOk (ospath_join (resolve_output_dir temp outd)
          (resolve_repo_id env.isDir repo rid ++ "_tree.txt")) = false ∨
        env.writeOk (ospath_join (resolve_output_dir temp outd)
          (resolve_repo_id env.isDir repo rid ++ "_content.txt")) = false) →
        ∀ pd ∈ (process_repository env temp repo outd rid).2.writes,
          ∀ m, pd.2 ≠ FileData.json m) := by
  by_cases h1 : env.writeOk (ospath_join (resolve_output_dir temp outd)
      (resolve_repo_id env.isDir repo rid ++ "_summary.txt")) = false
  · refine ⟨0, ?_, ?_⟩
    · simp [process_repository, hi, h1]
    · intro _ pd hpd
      simp [process_repository, hi, h1] at hpd
  · by_cases h2 : env.writeOk (ospath_join (resolve_output_dir temp outd)
        (resolve_repo_id env.isDir repo rid ++ "_tree.txt")) = false
    · refine ⟨1, ?_, ?_⟩
      · simp [process_repository, hi, h1, h2, full_writes]
      · intro _ pd hpd
        simp [process_repository, hi, h1, h2] at hpd
        simp [hpd]
    · by_cases h3 : env.writeOk (ospath_join (resolve_output_dir temp outd)
          (resolve_repo_id env.isDir repo rid ++ "_content.txt")) = false
      · refine ⟨2, ?_, ?_⟩
        · simp [process_repository, hi, h1, h2, h3, full_writes]
        · intro _ pd hpd
          simp [process_repository, hi, h1, h2, h3] at hpd
          rcases hpd with hpd | hpd <;> simp [hpd]
      · by_cases h4 : env.writeOk (ospath_join (resolve_output_dir temp outd)
            (resolve_repo_id env.isDir repo rid ++ "_metadata.json")) = false
        · refine ⟨3, ?_, ?_⟩
          · simp [process_repository, hi, h1, h2, h3, h4, full_writes]
          · intro hbad pd hpd
            rcases hbad with hb | hb | hb
            · exact absurd hb h1
            · exact absurd hb h2
            · exact absurd hb h3
        · refine ⟨4, ?_, ?_⟩
          · simp [process_repository, hi, h1, h2, h3, h4, full_writes]
          · intro hbad pd hpd
            rcases hbad with hb | hb | hb
            · exact absurd hb h1
            · exact absurd hb h2
            · exact absurd hb h3

/-- Environment in which writing the content file under the resolved
paths fails while everything else succeeds. -/
def envContentFail : Env :=
  { isDir := fun _ => true
    ingest := fun _ => Except.ok ("s", "t", "c")
    writeOk := fun p => p ≠ "/t/r_content.txt"
    listdir := some ["r1"]
    getctime := fun _ => 0
    makedirsOk := fun _ => true
    now := "2025-01-01 00:00:00"
    home := "/h" }

/-- Witness for C7 at an environment whose content write fails. -/
theorem metadata_written_last_witness :
    ∃ k, (process_repository envContentFail "/t" "r" none none).2.writes
        = (full_writes envContentFail (resolve_output_dir "/t" none)
            (resolve_repo_id envContentFail.isDir "r" none) "s" "t" "c").take k ∧
      ((envContentFail.writeOk (ospath_join (resolve_output_dir "/t" none)
          (resolve_repo_id envContentFail.isDir "r" none ++ "_summary.txt")) = false ∨
        envContentFail.writeOk (ospath_join (resolve_output_dir "/t" none)
          (resolve_repo_id envContentFail.isDir "r" none ++ "_tree.txt")) = false ∨
        envContentFail.writeOk (ospath_join (resolve_output_dir "/t" none)
          (resolve_repo_id envContentFail.isDir "r" none ++ "_content.txt")) = false) →
        ∀ pd ∈ (process_repository envContentFail "/t" "r" none none).2.writes,
          ∀ m, pd.2 ≠ FileData.json m) :=
  metadata_written_last envContentFail "/t" "r" none none "s" "t" "c" rfl

/-- Inserting into a list never yields the empty list. -/
theorem insertD_ne_nil (key : String → Int) (x : String) :
    ∀ l : List String, insertD key x l ≠ [] := by
  intro l
  cases l with
  | nil => simp [insertD]
  | cons y ys =>
    simp only [insertD]
    split <;> simp

/-- Sorting a non-empty list yields a non-empty list. -/
theorem sortDesc_ne_nil (key : String → Int) :
    ∀ l : List String, l ≠ [] → sortDesc key l ≠ [] := by
  intro l h
  cases l with
  | nil => exact absurd rfl h
  | cons x xs => exact insertD_ne_nil key x (sortDesc key xs)

/-- Head of the stable descending sort: it is an element of the list
whose key is maximal, and every element placed before it in the
original list has a strictly smaller key — the first-seen maximal
element wins. -/
theorem sortDesc_head_spec (key : String → Int) :
    ∀ l : List String, l ≠ [] →
      ∃ sel l₁ l₂,
        l = l₁ ++ sel :: l₂ ∧
        (∀ y ∈ l₁, key y < key sel) ∧
        (∀ y ∈ l, key y ≤ key sel) ∧
        (sortDesc key l).headD "" = sel := by
  intro l
  induction l with
  | nil => intro h; exact absurd rfl h
  | cons x xs ih =>
    intro _
    by_cases hxs : xs = []
    · subst hxs
      exact ⟨x, [], [], rfl, by simp, by simp, by simp [sortDesc, insertD]⟩
    · obtain ⟨sel, l₁, l₂, hdec, hlt, hle, hhead⟩ := ih hxs
      obtain ⟨b, tl, hbt⟩ : ∃ b tl, sortDesc key xs = b :: tl := by
        cases hs : sortDesc key xs with
        | nil => exact absurd hs (sortDesc_ne_nil key xs hxs)
        | cons b tl => exact ⟨b, tl, rfl⟩
      have hb : b = sel := by simpa [hbt] using hhead
      rw [hb] at hbt
      by_cases hcmp : key sel ≤ key x
      · refine ⟨x, [], xs, rfl, by simp, ?_, ?_⟩
        · intro y hy
          rcases List.mem_cons.mp hy with h | h
          · exact le_of_eq (by rw [h])
          · exact le_trans (hle y h) hcmp
        · simp [sortDesc, hbt, insertD, hcmp]
      · have hlt' : key x < key sel := lt_of_not_le hcmp
        refine ⟨sel, x :: l₁, l₂, by simp [hdec], ?_, ?_, ?_⟩
        · intro y hy
          rcases List.mem_cons.mp hy with h | h
          · rw [h]; exact hlt'
          · exact hlt y h
        · intro y hy
          rcases List.mem_cons.mp hy with h | h
          · rw [h]; exact le_of_lt hlt'
          · exact hle y h
        · simp [sortDesc, hbt, insertD, hcmp]

/-- C4: on a non-empty candidate list, process_latest_repo selects the
first-discovered candidate whose creation time is maximal — every
candidate discovered before it is strictly older, no candidate is
newer — and delegates to process_repository with that candidate's full
path as the reference and its name as the identifier. -/
theorem latest_selection (env : Env) (temp : String) (outd : Option String)
    (h : get_repo_dirs env temp ≠ []) :
    ∃ sel l₁ l₂,
      get_repo_dirs env temp = l₁ ++ sel :: l₂ ∧
      (∀ y ∈ l₁, ctime_key env temp y < ctime_key env temp sel) ∧
      (∀ y ∈ get_repo_dirs env temp, ctime_key env temp y ≤ ctime_key env temp sel) ∧
      process_latest_repo env temp outd
        = process_repository env temp (ospath_join temp sel) outd (some sel) := by
  obtain ⟨sel, l₁, l₂, hdec, hlt, hle, hhead⟩ :=
    sortDesc_head_spec (ctime_key env temp) (get_repo_dirs env temp) h
  have hh : (sortDesc (ctime_key env temp) (get_repo_dirs env temp)).head?.getD "" = sel := by
    simpa using hhead
  exact ⟨sel, l₁, l₂, hdec, hlt, hle, by simp [process_latest_repo, h, hh]⟩

/-- Environment with two candidate directories whose creation times
are distinct, the later-discovered one being newer. -/
def envLatest : Env :=
  { isDir := fun _ => true
    ingest := fun _ => Except.ok ("s", "t", "c")
    writeOk := fun _ => true
    listdir := some ["a", "b"]
    getctime := fun p => if p = "/t/b" then 2 else 1
    makedirsOk := fun _ => true
    now := "2025-01-01 00:00:00"
    home := "/h" }

/-- Witness for C4 at a concrete two-candidate environment. -/
theorem latest_selection_witness :
    ∃ sel l₁ l₂,
      get_repo_dirs envLatest "/t" = l₁ ++ sel :: l₂ ∧
      (∀ y ∈ l₁, ctime_key envLatest "/t" y < ctime_key envLatest "/t" sel) ∧
      (∀ y ∈ get_repo_dirs envLatest "/t",
        ctime_key envLatest "/t" y ≤ ctime_key envLatest "/t" sel) ∧
      process_latest_repo envLatest "/t" none
        = process_repository envLatest "/t" (ospath_join "/t" sel) none (some sel) :=
  latest_selection envLatest "/t" none (by decide)

/-- C9: the command-line entry point exits with code one when directory
creation at construction fails, exits according to the outcome of
process_repository on the repo branch and of process_latest_repo on
the latest branch — zero on success, one on a raised error — and exits
with code zero on the no-argument candidate-listing path. -/
theorem main_exit_codes (env : Env) (args : Args) :
    (env.makedirsOk (resolve_temp_dir env args.temp_dir) = false →
      (main_entry env args).1 = 1) ∧
    (env.makedirsOk (resolve_temp_dir env args.temp_dir) = true →
      pyTruthy args.repo = true →
      (main_entry env args).1 =
        if exceptOk (process_repository env (resolve_temp_dir env args.temp_dir)
            (args.repo.getD "") args.output_dir args.repo_id).1 then 0 else 1) ∧
    (env.makedirsOk (resolve_temp_dir env args.temp_dir) = true →
      pyTruthy args.repo = false → args.latest = true →
      (main_entry env args).1 =
        if exceptOk (process_latest_repo env (resolve_temp_dir env args.temp_dir)
            args.output_dir).1 then 0 else 1) ∧
    (env.makedirsOk (resolve_temp_dir env args.temp_dir) = true →
      pyTruthy args.repo = false → args.latest = false →
      (main_entry env args).1 = 0) := by
  refine ⟨?_, ?_, ?_, ?_⟩
  · intro h
    simp [main_entry, h]
  · intro h hrepo
    rcases hp : process_repository env (resolve_temp_dir env args.temp_dir)
        (args.repo.getD "") args.output_dir args.repo_id with ⟨res, tr⟩
    cases res <;> simp [main_entry, h, hrepo, hp, exit_of, exceptOk]
  · intro h hrepo hlat
    rcases hp : process_latest_repo env (resolve_temp_dir env args.temp_dir)
        args.output_dir with ⟨res, tr⟩
    cases res <;> simp [main_entry, h, hrepo, hlat, hp, exit_of, exceptOk]
  · intro h hrepo hlat
    simp [main_entry, h, hrepo, hlat]

/-- Arguments for the no-argument candidate-listing invocation with an
explicit working directory. -/
def argsNoArg : Args :=
  { repo := none, latest := false, temp_dir := some "/t",
    output_dir := none, repo_id := none, verbose := false }

/-- Arguments processing the reference "r" with an explicit working
directory. -/
def argsRepo : Args :=
  { repo := some "r", latest := false, temp_dir := some "/t",
    output_dir := none, repo_id := none, verbose := false }

/-- Witness for C9: the listing path exits with zero, and the repo
branch under a failing ingestion exits with the code determined by the
raised error. -/
theorem main_exit_codes_witness :
    (main_entry envOk argsNoArg).1 = 0 ∧
    (main_entry envIngestFail argsRepo).1 =
      if exceptOk (process_repository envIngestFail (resolve_temp_dir envIngestFail argsRepo.temp_dir)
          (argsRepo.repo.getD "") argsRepo.output_dir argsRepo.repo_id).1 then 0 else 1 :=
  ⟨(main_exit_codes envOk argsNoArg).2.2.2 (by decide) (by decide) (by decide),
   (main_exit_codes envIngestFail argsRepo).2.1 (by decide) (by decide)⟩

/-- Arguments supplying both the repo flag (with an empty value) and
the latest flag. -/
def argsBothEmpty : Args :=
  { repo := some "", latest := true, temp_dir := some "/t",
    output_dir := none, repo_id := none, verbose := false }

/-- C10 counterexample: with the repo flag supplied with an empty value
together with the latest flag, the latest branch runs, not the repo
branch — here it raises the no-repositories error and exits with code
one, its trace shows that no ingestion call was made, while the repo
branch would have succeeded. -/
theorem repo_flag_empty_cex :
    main_entry envListNone argsBothEmpty = (1, ⟨[], []⟩) ∧
    exceptOk (process_repository envListNone "/t" "" none none).1 = true := by
  constructor
  · rfl
  · rfl

/-- C10 amended: whenever the repo flag carries a non-empty value, the
repo branch is taken regardless of the latest flag — the outcome does
not depend on the latest flag at all, and under a successful
construction it equals the outcome of process_repository on the given
reference; an empty repo value is falsy and is treated as absent. -/
theorem repo_branch_priority (env : Env) (args : Args)
    (h : pyTruthy args.repo = true) :
    (∀ b₁ b₂ : Bool, main_entry env { args with latest := b₁ }
        = main_entry env { args with latest := b₂ }) ∧
    (env.makedirsOk (resolve_temp_dir env args.temp_dir) = true →
      main_entry env args
        = exit_of (process_repository env (resolve_temp_dir env args.temp_dir)
            (args.repo.getD "") args.output_dir args.repo_id)) := by
  constructor
  · intro b₁ b₂
    simp [main_entry, h]
  · intro hm
    simp [main_entry, h, hm]

/-- Arguments supplying both a non-empty repo reference and the latest
flag. -/
def argsRepoLatest : Args :=
  { repo := some "r", latest := true, temp_dir := some "/t",
    output_dir := none, repo_id := none, verbose := false }

/-- Witness for C10 amended at a concrete invocation carrying both
flags. -/
theorem repo_branch_priority_witness :
    main_entry envOk { argsRepoLatest with latest := true }
      = main_entry envOk { argsRepoLatest with latest := false } ∧
    main_entry envOk argsRepoLatest
      = exit_of (process_repository envOk (resolve_temp_dir envOk argsRepoLatest.temp_dir)
          (argsRepoLatest.repo.getD "") argsRepoLatest.output_dir argsRepoLatest.repo_id) :=
  ⟨(repo_branch_priority envOk argsRepoLatest (by decide)).1 true false,
   (repo_branch_priority envOk argsRepoLatest (by decide)).2 (by decide)⟩
